import Mathlib

/-!
Shallow embedding of the repository-scoped Git command gateway
(git-mcp-go): path normalization, the repository registry, the path
guard, the tool handlers, and the two push backends, together with
theorems settling the specification claims.
-/

deriving instance DecidableEq for Except

namespace GitMcp

/-! ### String primitives

Go's `strings` helpers are re-implemented over `List Char` so that every
definition reduces inside the kernel. -/

/-- Whether `pat` occurs at the head of `s` (list form of a prefix test). -/
def listHasPfx : List Char → List Char → Bool
  | [], _ => true
  | _ :: _, [] => false
  | p :: ps, c :: cs => p = c && listHasPfx ps cs

/-- Go `strings.HasPrefix s pre`. -/
def goHasPfx (s pre : String) : Bool := listHasPfx pre.toList s.toList

/-- Whether `pat` occurs as a contiguous sublist of the second argument. -/
def listHasSub (pat : List Char) : List Char → Bool
  | [] => listHasPfx pat []
  | c :: cs => listHasPfx pat (c :: cs) || listHasSub pat cs

/-- Go `strings.Contains s pat`. -/
def strContains (s pat : String) : Bool := listHasSub pat.toList s.toList

/-- Accumulating worker for `splitOnChar`; `cur` holds the current field
reversed. -/
def splitOnCharAux (sep : Char) : List Char → List Char → List String
  | [], cur => [String.mk cur.reverse]
  | c :: cs, cur =>
    if c = sep then String.mk cur.reverse :: splitOnCharAux sep cs []
    else splitOnCharAux sep cs (c :: cur)

/-- Go `strings.Split s (String.singleton sep)`: split on one separator
character, keeping empty fields. -/
def splitOnChar (s : String) (sep : Char) : List String :=
  splitOnCharAux sep s.toList []

/-- The characters Go `unicode.IsSpace` recognises (the latin-1 range). -/
def isSpaceChar (c : Char) : Bool :=
  c = ' ' || c = '\t' || c = '\n' || c = '\x0b' || c = '\x0c' || c = '\r'
    || c = '\u0085' || c = '\u00a0'

/-- Go `strings.TrimSpace`. -/
def goTrimSpace (s : String) : String :=
  String.mk (((s.toList.dropWhile isSpaceChar).reverse.dropWhile isSpaceChar).reverse)

/-! ### Go `path/filepath` primitives (Unix semantics) -/

/-- One step of Go `filepath.Clean`'s element processing: push a normal
component, skip empty and dot components, and let a dotdot component pop
the stack (dropped at the root when `rooted`). The stack is kept reversed. -/
def cleanStep (rooted : Bool) (stack : List String) (c : String) : List String :=
  if c = "" || c = "." then stack
  else if c = ".." then
    match stack with
    | [] => if rooted then [] else [".."]
    | top :: rest => if top = ".." then ".." :: top :: rest else rest
  else c :: stack

/-- Go `filepath.Clean` for Unix paths: lexical normalization removing
empty and dot components and resolving dotdot components. -/
def goClean (path : String) : String :=
  if path = "" then "."
  else
    let rooted := goHasPfx path "/"
    let comps := splitOnChar path '/'
    let stack := comps.foldl (cleanStep rooted) []
    let body := String.intercalate "/" stack.reverse
    if rooted then
      if body = "" then "/" else "/" ++ body
    else
      if body = "" then "." else body

/-- Go `filepath.IsAbs` for Unix paths. -/
def goIsAbs (path : String) : Bool := goHasPfx path "/"

/-- Go `filepath.Join` on two elements: empty elements are dropped and the
result is cleaned. -/
def goJoin (a b : String) : String :=
  if a = "" then (if b = "" then "" else goClean b)
  else if b = "" then goClean a
  else goClean (a ++ "/" ++ b)

/-- Go `filepath.Abs`: an absolute path is cleaned in place, a relative
path is joined onto the working directory; it fails exactly when the
working directory is unavailable for a relative path. -/
def goAbs (cwd : Option String) (path : String) : Option String :=
  if goIsAbs path then some (goClean path)
  else
    match cwd with
    | none => none
    | some d => some (goJoin d path)

/-- Go `filepath.Base` for Unix paths. -/
def goBase (path : String) : String :=
  if path = "" then "."
  else
    let comps := (splitOnChar path '/').filter (fun c => c ≠ "")
    match comps.getLast? with
    | some c => c
    | none => "/"

/-! ### Filesystem environment -/

/-- Outcome of `os.Stat` on a path: success (recording whether the entry is
a directory), a does-not-exist failure, or some other failure. -/
inductive StatRes where
  | ok (isDir : Bool)
  | notExist
  | err
deriving DecidableEq, Repr

/-- The ambient OS state the gateway reads: the working directory (absent
when `os.Getwd` fails, the only failure mode of `filepath.Abs`) and the
result of `os.Stat` at each path. -/
structure Env where
  cwd : Option String
  stat : String → StatRes

/-! ### Server state and registry construction -/

/-- The server state the handlers touch: the registry of repository root
paths and the write-access flag. The MCP transport object and the backend
are threaded separately. -/
structure GitServer where
  repoPaths : List String
  writeAccess : Bool
deriving DecidableEq, Repr

/-- The normalization loop of `NewGitServer`: empty paths are skipped,
paths that fail to absolutize are skipped with a warning, paths whose
`.git` entry is not an existing directory are skipped with a warning, and
every surviving path contributes its absolute form, in input order. -/
def normalizePaths (env : Env) : List String → List String
  | [] => []
  | path :: rest =>
    if path = "" then normalizePaths env rest
    else
      match goAbs env.cwd path with
      | none => normalizePaths env rest
      | some absPath =>
        match env.stat (goJoin absPath ".git") with
        | .ok true => absPath :: normalizePaths env rest
        | _ => normalizePaths env rest

/-- `NewGitServer`: builds the server with the normalized registry. -/
def NewGitServer (env : Env) (repoPaths : List String) (writeAccess : Bool) : GitServer :=
  { repoPaths := normalizePaths env repoPaths, writeAccess := writeAccess }

/-! ### Path guard -/

/-- `isPathInAllowedRepos`: absolutize the path and test whether any
registry entry is a string prefix of it. -/
def isPathInAllowedRepos (s : GitServer) (env : Env) (path : String) : Bool :=
  match goAbs env.cwd path with
  | none => false
  | some absPath => s.repoPaths.any (fun repoPath => goHasPfx absPath repoPath)

/-- `validateRepoPath`: empty request falls back to the first registry
entry; otherwise absolutize, check containment, and check that the `.git`
entry does not fail `os.Stat` with a does-not-exist error. -/
def validateRepoPath (s : GitServer) (env : Env) (requestedPath : String) :
    Except String String :=
  if requestedPath = "" then
    match s.repoPaths with
    | [] => .error "no repository specified and no defaults configured"
    | r :: _ => .ok r
  else
    match goAbs env.cwd requestedPath with
    | none => .error "invalid path"
    | some absPath =>
      if !(isPathInAllowedRepos s env absPath) then
        .error ("access denied - path outside allowed repositories: " ++ absPath)
      else if env.stat (goJoin absPath ".git") = .notExist then
        .error ("not a git repository: " ++ absPath)
      else
        .ok absPath

/-- `getRepoPathForOperation` delegates to `validateRepoPath`. -/
def getRepoPathForOperation (s : GitServer) (env : Env) (requestedPath : String) :
    Except String String :=
  validateRepoPath s env requestedPath

/-! ### Request argument bag -/

/-- A value in the string-keyed argument map of a tool call: a JSON string,
a JSON number (delivered to Go as float64, modelled by its integral value),
or any other shape. -/
inductive MVal where
  | str (s : String)
  | num (x : Int)
  | other
deriving DecidableEq, Repr

/-- The argument map of a call, keyed by argument name. -/
abbrev Args := List (String × MVal)

/-- Map lookup: the value stored under key `k`, if any. -/
def lookupArg (args : Args) (k : String) : Option MVal :=
  (args.find? (fun p => p.1 = k)).map (fun p => p.2)

/-- The Go type assertion `args[k].(string)` with its `ok` flag: `some s`
when the key holds a string, `none` when absent or of another type. -/
def getStr (args : Args) (k : String) : Option String :=
  match lookupArg args k with
  | some (.str s) => some s
  | _ => none

/-- The Go pattern `v, _ := args[k].(string)`: the string under `k`, or
the empty string when absent or not a string. -/
def argStr (args : Args) (k : String) : String :=
  (getStr args k).getD ""

/-! ### Tool results, backend interface and call trace -/

/-- An MCP tool call result: an error payload or a success text. The call
always succeeds at the transport layer; `isError` marks the payload. -/
structure ToolResult where
  isError : Bool
  text : String
deriving DecidableEq, Repr

/-- `mcp.NewToolResultError`. -/
def toolResultError (msg : String) : ToolResult := { isError := true, text := msg }

/-- `mcp.NewToolResultText`. -/
def toolResultText (t : String) : ToolResult := { isError := false, text := t }

/-- One invocation of a `GitOperations` backend method, with its
arguments; handlers record these so that "no backend call is made" is an
observable statement. -/
inductive BackendOp where
  | getStatus (repo : String)
  | getDiffUnstaged (repo : String)
  | getDiffStaged (repo : String)
  | getDiff (repo target : String)
  | commitChanges (repo message : String)
  | addFiles (repo : String) (files : List String)
  | resetStaged (repo : String)
  | getLog (repo : String) (maxCount : Int)
  | createBranch (repo name base : String)
  | checkoutBranch (repo name : String)
  | showCommit (repo rev : String)
  | initRepo (path : String)
  | pushChanges (repo remote branch : String)
  | applyPatchFromString (repo patch : String)
  | applyPatchFromFile (repo file : String)
deriving DecidableEq, Repr

/-- The `GitOperations` capability interface: one method per Git
operation, each returning text or a descriptive failure. -/
structure GitOperations where
  getStatus : String → Except String String
  getDiffUnstaged : String → Except String String
  getDiffStaged : String → Except String String
  getDiff : String → String → Except String String
  commitChanges : String → String → Except String String
  addFiles : String → List String → Except String String
  resetStaged : String → Except String String
  getLog : String → Int → Except String (List String)
  createBranch : String → String → String → Except String String
  checkoutBranch : String → String → Except String String
  showCommit : String → String → Except String String
  initRepo : String → Except String String
  pushChanges : String → String → String → Except String String
  applyPatchFromString : String → String → Except String String
  applyPatchFromFile : String → String → Except String String

/-- What a handler produces: the protocol result, the server state after
the call (only `git_init` ever changes it), and the trace of backend
method invocations made during the call. -/
structure HandlerOut where
  result : ToolResult
  server : GitServer
  trace : List BackendOp
deriving DecidableEq, Repr

/-! ### Tool handlers -/

/-- `gitStatusHandler`. -/
def gitStatusHandler (s : GitServer) (ops : GitOperations) (env : Env) (args : Args) :
    HandlerOut :=
  let requestedPath := argStr args "repo_path"
  match getRepoPathForOperation s env requestedPath with
  | .error e => ⟨toolResultError ("Repository path error: " ++ e), s, []⟩
  | .ok repoPath =>
    match ops.getStatus repoPath with
    | .error e => ⟨toolResultError ("Failed to get status: " ++ e), s, [.getStatus repoPath]⟩
    | .ok status =>
      ⟨toolResultText ("Repository status for " ++ repoPath ++ ":\n" ++ status), s,
        [.getStatus repoPath]⟩

/-- `gitDiffUnstagedHandler`. -/
def gitDiffUnstagedHandler (s : GitServer) (ops : GitOperations) (env : Env) (args : Args) :
    HandlerOut :=
  let requestedPath := argStr args "repo_path"
  match getRepoPathForOperation s env requestedPath with
  | .error e => ⟨toolResultError ("Repository path error: " ++ e), s, []⟩
  | .ok repoPath =>
    match ops.getDiffUnstaged repoPath with
    | .error e =>
      ⟨toolResultError ("Failed to get unstaged diff: " ++ e), s, [.getDiffUnstaged repoPath]⟩
    | .ok diff =>
      ⟨toolResultText ("Unstaged changes for " ++ repoPath ++ ":\n" ++ diff), s,
        [.getDiffUnstaged repoPath]⟩

/-- `gitDiffStagedHandler`. -/
def gitDiffStagedHandler (s : GitServer) (ops : GitOperations) (env : Env) (args : Args) :
    HandlerOut :=
  let requestedPath := argStr args "repo_path"
  match getRepoPathForOperation s env requestedPath with
  | .error e => ⟨toolResultError ("Repository path error: " ++ e), s, []⟩
  | .ok repoPath =>
    match ops.getDiffStaged repoPath with
    | .error e =>
      ⟨toolResultError ("Failed to get staged diff: " ++ e), s, [.getDiffStaged repoPath]⟩
    | .ok diff =>
      ⟨toolResultText ("Staged changes for " ++ repoPath ++ ":\n" ++ diff), s,
        [.getDiffStaged repoPath]⟩

/-- `gitDiffHandler`: note the repository is resolved before the required
`target` argument is checked. -/
def gitDiffHandler (s : GitServer) (ops : GitOperations) (env : Env) (args : Args) :
    HandlerOut :=
  let requestedPath := argStr args "repo_path"
  match getRepoPathForOperation s env requestedPath with
  | .error e => ⟨toolResultError ("Repository path error: " ++ e), s, []⟩
  | .ok repoPath =>
    match getStr args "target" with
    | none => ⟨toolResultError "target must be a string", s, []⟩
    | some target =>
      match ops.getDiff repoPath target with
      | .error e => ⟨toolResultError ("Failed to get diff: " ++ e), s, [.getDiff repoPath target]⟩
      | .ok diff =>
        ⟨toolResultText ("Diff with " ++ target ++ " for " ++ repoPath ++ ":\n" ++ diff), s,
          [.getDiff repoPath target]⟩

/-- `gitCommitHandler`: resolves the repository before checking `message`. -/
def gitCommitHandler (s : GitServer) (ops : GitOperations) (env : Env) (args : Args) :
    HandlerOut :=
  let requestedPath := argStr args "repo_path"
  match getRepoPathForOperation s env requestedPath with
  | .error e => ⟨toolResultError ("Repository path error: " ++ e), s, []⟩
  | .ok repoPath =>
    match getStr args "message" with
    | none => ⟨toolResultError "message must be a string", s, []⟩
    | some message =>
      match ops.commitChanges repoPath message with
      | .error e =>
        ⟨toolResultError ("Failed to commit: " ++ e), s, [.commitChanges repoPath message]⟩
      | .ok result => ⟨toolResultText result, s, [.commitChanges repoPath message]⟩

/-- `gitAddHandler`: splits the comma-separated file list and trims each
entry before staging. -/
def gitAddHandler (s : GitServer) (ops : GitOperations) (env : Env) (args : Args) :
    HandlerOut :=
  let requestedPath := argStr args "repo_path"
  match getRepoPathForOperation s env requestedPath with
  | .error e => ⟨toolResultError ("Repository path error: " ++ e), s, []⟩
  | .ok repoPath =>
    match getStr args "files" with
    | none => ⟨toolResultError "files must be a string", s, []⟩
    | some filesStr =>
      let files := (splitOnChar filesStr ',').map (fun f => goTrimSpace f)
      match ops.addFiles repoPath files with
      | .error e =>
        ⟨toolResultError ("Failed to add files: " ++ e), s, [.addFiles repoPath files]⟩
      | .ok result => ⟨toolResultText result, s, [.addFiles repoPath files]⟩

/-- `gitResetHandler`. -/
def gitResetHandler (s : GitServer) (ops : GitOperations) (env : Env) (args : Args) :
    HandlerOut :=
  let requestedPath := argStr args "repo_path"
  match getRepoPathForOperation s env requestedPath with
  | .error e => ⟨toolResultError ("Repository path error: " ++ e), s, []⟩
  | .ok repoPath =>
    match ops.resetStaged repoPath with
    | .error e => ⟨toolResultError ("Failed to reset: " ++ e), s, [.resetStaged repoPath]⟩
    | .ok result => ⟨toolResultText result, s, [.resetStaged repoPath]⟩

/-- `gitLogHandler`: `max_count` defaults to 10 and is only used when the
argument is present as a number. -/
def gitLogHandler (s : GitServer) (ops : GitOperations) (env : Env) (args : Args) :
    HandlerOut :=
  let requestedPath := argStr args "repo_path"
  match getRepoPathForOperation s env requestedPath with
  | .error e => ⟨toolResultError ("Repository path error: " ++ e), s, []⟩
  | .ok repoPath =>
    let maxCount : Int :=
      match lookupArg args "max_count" with
      | some (.num x) => x
      | _ => 10
    match ops.getLog repoPath maxCount with
    | .error e => ⟨toolResultError ("Failed to get log: " ++ e), s, [.getLog repoPath maxCount]⟩
    | .ok logs =>
      ⟨toolResultText
          ("Commit history for " ++ repoPath ++ ":\n" ++ String.intercalate "\n" logs), s,
        [.getLog repoPath maxCount]⟩

/-- `gitCreateBranchHandler`: `base_branch` is optional and defaults to
the empty string when absent or not a string. -/
def gitCreateBranchHandler (s : GitServer) (ops : GitOperations) (env : Env) (args : Args) :
    HandlerOut :=
  let requestedPath := argStr args "repo_path"
  match getRepoPathForOperation s env requestedPath with
  | .error e => ⟨toolResultError ("Repository path error: " ++ e), s, []⟩
  | .ok repoPath =>
    match getStr args "branch_name" with
    | none => ⟨toolResultError "branch_name must be a string", s, []⟩
    | some branchName =>
      let baseBranch := argStr args "base_branch"
      match ops.createBranch repoPath branchName baseBranch with
      | .error e =>
        ⟨toolResultError ("Failed to create branch: " ++ e), s,
          [.createBranch repoPath branchName baseBranch]⟩
      | .ok result => ⟨toolResultText result, s, [.createBranch repoPath branchName baseBranch]⟩

/-- `gitCheckoutHandler`. -/
def gitCheckoutHandler (s : GitServer) (ops : GitOperations) (env : Env) (args : Args) :
    HandlerOut :=
  let requestedPath := argStr args "repo_path"
  match getRepoPathForOperation s env requestedPath with
  | .error e => ⟨toolResultError ("Repository path error: " ++ e), s, []⟩
  | .ok repoPath =>
    match getStr args "branch_name" with
    | none => ⟨toolResultError "branch_name must be a string", s, []⟩
    | some branchName =>
      match ops.checkoutBranch repoPath branchName with
      | .error e =>
        ⟨toolResultError ("Failed to checkout branch: " ++ e), s,
          [.checkoutBranch repoPath branchName]⟩
      | .ok result => ⟨toolResultText result, s, [.checkoutBranch repoPath branchName]⟩

/-- `gitShowHandler`. -/
def gitShowHandler (s : GitServer) (ops : GitOperations) (env : Env) (args : Args) :
    HandlerOut :=
  let requestedPath := argStr args "repo_path"
  match getRepoPathForOperation s env requestedPath with
  | .error e => ⟨toolResultError ("Repository path error: " ++ e), s, []⟩
  | .ok repoPath =>
    match getStr args "revision" with
    | none => ⟨toolResultError "revision must be a string", s, []⟩
    | some revision =>
      match ops.showCommit repoPath revision with
      | .error e =>
        ⟨toolResultError ("Failed to show commit: " ++ e), s, [.showCommit repoPath revision]⟩
      | .ok result => ⟨toolResultText result, s, [.showCommit repoPath revision]⟩

/-- `gitInitHandler`: exempt from the path guard; requires a non-empty,
absolutizable path, and on backend success appends the absolute path to
the registry unconditionally. -/
def gitInitHandler (s : GitServer) (ops : GitOperations) (env : Env) (args : Args) :
    HandlerOut :=
  let requestedPath := argStr args "repo_path"
  if requestedPath = "" then
    ⟨toolResultError "repo_path must be specified for initialization", s, []⟩
  else
    match goAbs env.cwd requestedPath with
    | none => ⟨toolResultError "Failed to get absolute path", s, []⟩
    | some absPath =>
      match ops.initRepo absPath with
      | .error e =>
        ⟨toolResultError ("Failed to initialize repository: " ++ e), s, [.initRepo absPath]⟩
      | .ok result =>
        ⟨toolResultText result, { s with repoPaths := s.repoPaths ++ [absPath] },
          [.initRepo absPath]⟩

/-- `gitPushHandler`: short-circuits with the write-access-disabled error
before anything else when the flag is off. -/
def gitPushHandler (s : GitServer) (ops : GitOperations) (env : Env) (args : Args) :
    HandlerOut :=
  if !s.writeAccess then
    ⟨toolResultError
        "Write access is disabled. Use --write-access flag to enable remote operations.", s, []⟩
  else
    let requestedPath := argStr args "repo_path"
    match getRepoPathForOperation s env requestedPath with
    | .error e => ⟨toolResultError ("Repository path error: " ++ e), s, []⟩
    | .ok repoPath =>
      let remote := argStr args "remote"
      let branch := argStr args "branch"
      match ops.pushChanges repoPath remote branch with
      | .error e =>
        ⟨toolResultError ("Failed to push changes: " ++ e), s,
          [.pushChanges repoPath remote branch]⟩
      | .ok result => ⟨toolResultText result, s, [.pushChanges repoPath remote branch]⟩

/-- `gitApplyPatchStringHandler`: rejects a missing, non-string, or
whitespace-only `patch_string` without touching the backend. -/
def gitApplyPatchStringHandler (s : GitServer) (ops : GitOperations) (env : Env)
    (args : Args) : HandlerOut :=
  let requestedPath := argStr args "repo_path"
  match getRepoPathForOperation s env requestedPath with
  | .error e => ⟨toolResultError ("Repository path error: " ++ e), s, []⟩
  | .ok repoPath =>
    match getStr args "patch_string" with
    | none => ⟨toolResultError "patch_string must be a string", s, []⟩
    | some patchString =>
      if goTrimSpace patchString = "" then
        ⟨toolResultError "patch_string cannot be empty", s, []⟩
      else
        match ops.applyPatchFromString repoPath patchString with
        | .error e =>
          ⟨toolResultError ("Failed to apply patch: " ++ e), s,
            [.applyPatchFromString repoPath patchString]⟩
        | .ok result =>
          ⟨toolResultText result, s, [.applyPatchFromString repoPath patchString]⟩

/-- `gitApplyPatchFileHandler`: rejects a missing, non-string, or
whitespace-only `patch_file`, an unresolvable patch path, and a patch file
whose `os.Stat` reports does-not-exist, all without touching the backend. -/
def gitApplyPatchFileHandler (s : GitServer) (ops : GitOperations) (env : Env)
    (args : Args) : HandlerOut :=
  let requestedPath := argStr args "repo_path"
  match getRepoPathForOperation s env requestedPath with
  | .error e => ⟨toolResultError ("Repository path error: " ++ e), s, []⟩
  | .ok repoPath =>
    match getStr args "patch_file" with
    | none => ⟨toolResultError "patch_file must be a string", s, []⟩
    | some patchFile =>
      if goTrimSpace patchFile = "" then
        ⟨toolResultError "patch_file cannot be empty", s, []⟩
      else
        match goAbs env.cwd patchFile with
        | none => ⟨toolResultError "Invalid patch file path", s, []⟩
        | some absPath =>
          if env.stat absPath = .notExist then
            ⟨toolResultError ("Patch file does not exist: " ++ absPath), s, []⟩
          else
            match ops.applyPatchFromFile repoPath absPath with
            | .error e =>
              ⟨toolResultError ("Failed to apply patch: " ++ e), s,
                [.applyPatchFromFile repoPath absPath]⟩
            | .ok result => ⟨toolResultText result, s, [.applyPatchFromFile repoPath absPath]⟩

/-- `gitListRepositoriesHandler`: bypasses repository resolution and
enumerates the registry with basename labels. -/
def gitListRepositoriesHandler (s : GitServer) (_ops : GitOperations) (_env : Env)
    (_args : Args) : HandlerOut :=
  if s.repoPaths.length = 0 then
    ⟨toolResultText "No repositories configured", s, []⟩
  else
    let body :=
      String.join
        ((s.repoPaths.enum.map (fun p =>
          toString (p.1 + 1) ++ ". " ++ goBase p.2 ++ " (" ++ p.2 ++ ")\n")))
    ⟨toolResultText
        ("Available repositories (" ++ toString s.repoPaths.length ++ "):\n\n" ++ body), s, []⟩

/-! ### Tool catalog and dispatch -/

/-- The tool names registered unconditionally by `RegisterTools`, in
registration order. -/
def baseToolNames : List String :=
  ["git_status", "git_diff_unstaged", "git_diff_staged", "git_diff", "git_commit",
   "git_add", "git_reset", "git_log", "git_create_branch", "git_checkout",
   "git_show", "git_init", "git_list_repositories", "git_apply_patch_string",
   "git_apply_patch_file"]

/-- The advertised tool set of `RegisterTools`: the unconditional tools,
plus `git_push` exactly when the write-access flag is set. -/
def registeredToolNames (s : GitServer) : List String :=
  baseToolNames ++ (if s.writeAccess then ["git_push"] else [])

/-- The tools whose handlers resolve the target repository through
`getRepoPathForOperation`. -/
def resolvingToolNames : List String :=
  ["git_status", "git_diff_unstaged", "git_diff_staged", "git_diff", "git_commit",
   "git_add", "git_reset", "git_log", "git_create_branch", "git_checkout",
   "git_show", "git_apply_patch_string", "git_apply_patch_file", "git_push"]

/-- Dispatch of a named tool call to its handler. -/
def callTool (s : GitServer) (ops : GitOperations) (env : Env) (name : String)
    (args : Args) : HandlerOut :=
  if name = "git_status" then gitStatusHandler s ops env args
  else if name = "git_diff_unstaged" then gitDiffUnstagedHandler s ops env args
  else if name = "git_diff_staged" then gitDiffStagedHandler s ops env args
  else if name = "git_diff" then gitDiffHandler s ops env args
  else if name = "git_commit" then gitCommitHandler s ops env args
  else if name = "git_add" then gitAddHandler s ops env args
  else if name = "git_reset" then gitResetHandler s ops env args
  else if name = "git_log" then gitLogHandler s ops env args
  else if name = "git_create_branch" then gitCreateBranchHandler s ops env args
  else if name = "git_checkout" then gitCheckoutHandler s ops env args
  else if name = "git_show" then gitShowHandler s ops env args
  else if name = "git_init" then gitInitHandler s ops env args
  else if name = "git_list_repositories" then gitListRepositoriesHandler s ops env args
  else if name = "git_apply_patch_string" then gitApplyPatchStringHandler s ops env args
  else if name = "git_apply_patch_file" then gitApplyPatchFileHandler s ops env args
  else if name = "git_push" then gitPushHandler s ops env args
  else ⟨toolResultError ("Unknown tool: " ++ name), s, []⟩

/-! ### Push backends -/

/-- The substrate of the process-exec backend: `RunGitCommand`, given the
working directory and the argument list, yields combined output or the
wrapped failure text. -/
structure ShellEnv where
  run : String → List String → Except String String

/-- The argument list built by the shell `PushChanges`: `push`, then the
remote and branch when non-empty. -/
def pushCmdArgs (remote branch : String) : List String :=
  ["push"] ++ (if remote = "" then [] else [remote])
    ++ (if branch = "" then [] else [branch])

/-- The shell backend `PushChanges`: run `git push`, pass git's own output
through when it contains the `up-to-date` marker, otherwise reformat into
the canonical success message. -/
def shellPushChanges (renv : ShellEnv) (repoPath remote branch : String) :
    Except String String :=
  match renv.run repoPath (pushCmdArgs remote branch) with
  | .error e => .error ("failed to push changes: " ++ e)
  | .ok output =>
    if strContains output "up-to-date" then .ok output
    else .ok ("Successfully pushed to " ++ remote ++ "/" ++ branch ++ "\n" ++ output)

/-- A resolved go-git reference: its full name and whether it is a branch
reference. -/
structure GitRef where
  name : String
  isBranch : Bool
deriving DecidableEq, Repr

/-- Outcome of the go-git `repo.Push` transport call: success, the
`NoErrAlreadyUpToDate` sentinel, or another failure. -/
inductive PushOutcome where
  | ok
  | alreadyUpToDate
  | err (msg : String)
deriving DecidableEq, Repr

/-- The substrate of the library backend's push: whether `PlainOpen`
succeeds, the resolved HEAD reference, and the transport outcome of a push
of a given refspec to a given remote. -/
structure GoGitEnv where
  plainOpenOk : String → Bool
  head : String → Option GitRef
  push : String → String → String → PushOutcome

/-- The go-git branch reference name, `refs/heads/<branch>`. -/
def branchReferenceName (branch : String) : String := "refs/heads/" ++ branch

/-- The refspec side resolved by the library backend's push: the branch
argument's reference name when given, otherwise the HEAD reference, which
must be a branch. -/
def gogitRefspec (genv : GoGitEnv) (repoPath branch : String) : Except String String :=
  if branch = "" then
    match genv.head repoPath with
    | none => .error "failed to get HEAD"
    | some ref =>
      if !ref.isBranch then .error "HEAD is not a branch" else .ok ref.name
  else .ok (branchReferenceName branch)

/-- The library backend `PushChanges`: open the repository, default the
remote to `origin`, resolve the refspec from the branch argument or HEAD,
push, and translate the already-up-to-date sentinel into the friendly
`Everything up-to-date` success text. -/
def gogitPushChanges (genv : GoGitEnv) (repoPath remote branch : String) :
    Except String String :=
  if !genv.plainOpenOk repoPath then .error "failed to open repository"
  else
    let remoteName := if remote = "" then "origin" else remote
    match gogitRefspec genv repoPath branch with
    | .error e => .error e
    | .ok refspec =>
      match genv.push repoPath remoteName (refspec ++ ":" ++ refspec) with
      | .alreadyUpToDate => .ok "Everything up-to-date"
      | .ok => .ok ("Successfully pushed to " ++ remoteName ++ "/" ++ branch)
      | .err m => .error ("failed to push: " ++ m)

/-! ### Spec-side notions and concrete fixtures -/

/-- The specification's path-containment notion: a path is under a
repository root when it equals the root or extends it past a `/` path
separator (a path-segment boundary), unlike the source's raw string-prefix
comparison. -/
def specUnderRoot (root p : String) : Bool :=
  p = root || goHasPfx p (root ++ "/")

/-- A filesystem in which exactly `/repo` is a Git repository and nothing
else exists. -/
def envRepoOnly : Env :=
  { cwd := some "/home/user",
    stat := fun p => if p = "/repo/.git" then .ok true else .notExist }

/-- A server whose registry holds exactly `/repo`, write access off. -/
def srvRepo : GitServer := { repoPaths := ["/repo"], writeAccess := false }

/-- A backend whose operations all succeed with fixed texts, used to
instantiate theorems at concrete inputs. -/
def opsConst : GitOperations :=
  { getStatus := fun _ => .ok "clean",
    getDiffUnstaged := fun _ => .ok "",
    getDiffStaged := fun _ => .ok "",
    getDiff := fun _ _ => .ok "",
    commitChanges := fun _ _ => .ok "committed",
    addFiles := fun _ _ => .ok "Files staged successfully",
    resetStaged := fun _ => .ok "All staged changes reset",
    getLog := fun _ _ => .ok [],
    createBranch := fun _ _ _ => .ok "created",
    checkoutBranch := fun _ _ => .ok "switched",
    showCommit := fun _ _ => .ok "commit",
    initRepo := fun _ => .ok "initialized",
    pushChanges := fun _ _ _ => .ok "pushed",
    applyPatchFromString := fun _ _ => .ok "applied",
    applyPatchFromFile := fun _ _ => .ok "applied" }

/-! ### Supporting lemmas -/

theorem listHasPfx_self (l : List Char) : listHasPfx l l = true := by
  induction l with
  | nil => rfl
  | cons c cs ih => simp [listHasPfx, ih]

theorem goHasPfx_self (s : String) : goHasPfx s s = true :=
  listHasPfx_self s.toList

theorem lookupArg_cons_self (k : String) (v : MVal) (args : Args) :
    lookupArg ((k, v) :: args) k = some v := by
  simp [lookupArg, List.find?]

theorem lookupArg_cons_ne (k k' : String) (v : MVal) (args : Args) (h : k ≠ k') :
    lookupArg ((k, v) :: args) k' = lookupArg args k' := by
  simp [lookupArg, List.find?, h]

theorem getStr_cons_ne (k k' : String) (v : MVal) (args : Args) (h : k ≠ k') :
    getStr ((k, v) :: args) k' = getStr args k' := by
  simp [getStr, lookupArg_cons_ne _ _ _ _ h]

theorem argStr_cons_ne (k k' : String) (v : MVal) (args : Args) (h : k ≠ k') :
    argStr ((k, v) :: args) k' = argStr args k' := by
  simp [argStr, getStr_cons_ne _ _ _ _ h]

theorem argStr_of_none (args : Args) (k : String) (h : lookupArg args k = none) :
    argStr args k = "" := by
  simp [argStr, getStr, h]

theorem argStr_cons_self_str (k : String) (v : String) (args : Args) :
    argStr ((k, MVal.str v) :: args) k = v := by
  simp [argStr, getStr, lookupArg_cons_self]

/-- With a non-empty registry, an omitted path resolves to the first
registry entry. -/
theorem validateRepoPath_default (s : GitServer) (env : Env) (first : String)
    (rest : List String) (hreg : s.repoPaths = first :: rest) :
    validateRepoPath s env "" = .ok first := by
  simp [validateRepoPath, hreg]

/-- The first registry entry, when it is a fixed point of absolutization
and its Git metadata stat does not report does-not-exist, resolves to
itself. -/
theorem validateRepoPath_first (s : GitServer) (env : Env) (first : String)
    (rest : List String) (hreg : s.repoPaths = first :: rest) (hne : first ≠ "")
    (hfix : goAbs env.cwd first = some first)
    (hgit : env.stat (goJoin first ".git") ≠ .notExist) :
    validateRepoPath s env first = .ok first := by
  simp only [validateRepoPath, hne, if_false, hfix]
  have hin : isPathInAllowedRepos s env first = true := by
    simp [isPathInAllowedRepos, hfix, hreg, goHasPfx_self]
  simp [hin, hgit]

/-- With an empty registry, resolution fails on every input: the
no-default error on an empty request, otherwise the invalid-path or
access-denied error. -/
theorem validateRepoPath_nil (s : GitServer) (env : Env) (hreg : s.repoPaths = [])
    (p : String) :
    validateRepoPath s env p =
      if p = "" then .error "no repository specified and no defaults configured"
      else
        match goAbs env.cwd p with
        | none => .error "invalid path"
        | some q => .error ("access denied - path outside allowed repositories: " ++ q) := by
  by_cases hp : p = ""
  · simp [validateRepoPath, hp, hreg]
  · simp only [validateRepoPath, hp, if_false, hreg]
    cases habs : goAbs env.cwd p with
    | none => simp
    | some q =>
      have hfalse : isPathInAllowedRepos s env q = false := by
        unfold isPathInAllowedRepos
        cases goAbs env.cwd q <;> simp [hreg]
      simp [hfalse]

/-! ### Claim C1 -/

/-- **C1 (counterexample).** `/repo/docs` lies under the registered root
`/repo`, yet `validateRepoPath` rejects it with the not-a-git-repository
error instead of succeeding with its absolute form, because resolution
also requires Git metadata at the requested path itself. -/
theorem validateRepoPath_subpath_counterexample :
    specUnderRoot "/repo" "/repo/docs" = true
  ∧ validateRepoPath srvRepo envRepoOnly "/repo/docs" =
      .error "not a git repository: /repo/docs"
  ∧ validateRepoPath srvRepo envRepoOnly "/repo/docs" ≠ .ok "/repo/docs" := by
  decide

/-- **C1 (amended).** For a non-empty requested path `p` whose absolute
form `q` is canonical: when no registry entry is a string prefix of `q`,
resolution fails with the access-denied error naming `q`; when some entry
is a prefix, resolution succeeds with `q` exactly when the Git-metadata
stat at `q` does not report does-not-exist, and otherwise fails with the
not-a-git-repository error. -/
theorem validateRepoPath_resolution (s : GitServer) (env : Env) (p q : String)
    (hp : p ≠ "") (hq : goAbs env.cwd p = some q)
    (hcanon : goAbs env.cwd q = some q) :
    (s.repoPaths.any (fun r => goHasPfx q r) = false →
      validateRepoPath s env p =
        .error ("access denied - path outside allowed repositories: " ++ q))
  ∧ (s.repoPaths.any (fun r => goHasPfx q r) = true →
      (env.stat (goJoin q ".git") = .notExist →
        validateRepoPath s env p = .error ("not a git repository: " ++ q))
    ∧ (env.stat (goJoin q ".git") ≠ .notExist →
        validateRepoPath s env p = .ok q)) := by
  have hin : isPathInAllowedRepos s env q = s.repoPaths.any (fun r => goHasPfx q r) := by
    simp [isPathInAllowedRepos, hcanon]
  refine ⟨fun hout => ?_, fun hinside => ⟨fun hng => ?_, fun hg => ?_⟩⟩
  · simp [validateRepoPath, hp, hq, hin, hout]
  · simp [validateRepoPath, hp, hq, hin, hinside, hng]
  · simp [validateRepoPath, hp, hq, hin, hinside, hg]

/-- **C1 (witness).** At the registry `[/repo]`: the root itself resolves
to itself, and the sibling `/outside` is rejected with the access-denied
error naming it. -/
theorem validateRepoPath_resolution_witness :
    validateRepoPath srvRepo envRepoOnly "/repo" = .ok "/repo"
  ∧ validateRepoPath srvRepo envRepoOnly "/outside" =
      .error "access denied - path outside allowed repositories: /outside" := by
  refine ⟨?_, ?_⟩
  · exact ((validateRepoPath_resolution srvRepo envRepoOnly "/repo" "/repo"
      (by decide) (by decide) (by decide)).2 (by decide)).2 (by decide)
  · exact (validateRepoPath_resolution srvRepo envRepoOnly "/outside" "/outside"
      (by decide) (by decide) (by decide)).1 (by decide)

/-! ### Claim C2 -/

/-- **C2.** Containment is a string-prefix comparison of the absolutized
path against each registered root, so the sibling directory `/repo-evil`,
which lies outside the registered repository `/repo` under the
specification's segment-boundary notion of containment, is nevertheless
accepted by `isPathInAllowedRepos`. -/
theorem isPathInAllowedRepos_sibling_escape :
    srvRepo.repoPaths = ["/repo"]
  ∧ specUnderRoot "/repo" "/repo-evil" = false
  ∧ isPathInAllowedRepos srvRepo envRepoOnly "/repo-evil" = true := by
  decide

/-! ### Claim C5 -/

/-- **C5 (counterexample).** Registry construction does not de-duplicate:
configuring `/repo` twice yields a registry in which `/repo` occurs
twice. -/
theorem normalizePaths_duplicate_counterexample :
    normalizePaths envRepoOnly ["/repo", "/repo"] = ["/repo", "/repo"]
  ∧ ¬ (NewGitServer envRepoOnly ["/repo", "/repo"] false).repoPaths.Nodup := by
  decide

/-- The survival test `normalizePaths` applies to one configured path:
skip it when it is empty, fails to absolutize, or lacks a Git metadata
directory; otherwise keep its absolute form. -/
def survivingPath (env : Env) (path : String) : Option String :=
  if path = "" then none
  else
    match goAbs env.cwd path with
    | none => none
    | some absPath =>
      match env.stat (goJoin absPath ".git") with
      | .ok true => some absPath
      | _ => none

/-- **C5 (amended).** Registry construction returns, in input order,
exactly the surviving absolute forms of the input paths — empty paths,
paths whose absolute resolution fails, and paths lacking a Git metadata
directory are skipped rather than aborting — but the result is not
de-duplicated: a repeated input survives repeatedly. -/
theorem normalizePaths_eq_filterMap (env : Env) (paths : List String) :
    normalizePaths env paths = paths.filterMap (survivingPath env) := by
  induction paths with
  | nil => rfl
  | cons p rest ih =>
    by_cases hp : p = ""
    · simp [normalizePaths, survivingPath, hp, ih]
    · cases habs : goAbs env.cwd p with
      | none => simp [normalizePaths, survivingPath, hp, habs, ih]
      | some a =>
        cases hst : env.stat (goJoin a ".git") with
        | ok d =>
          cases d <;> simp [normalizePaths, survivingPath, hp, habs, hst, ih]
        | notExist => simp [normalizePaths, survivingPath, hp, habs, hst, ih]
        | err => simp [normalizePaths, survivingPath, hp, habs, hst, ih]

/-! ### Claim C3 -/

/-- **C3.** `git_push` appears in the advertised tool set exactly when the
server was constructed with write access enabled; every other tool is
registered regardless of the flag; and with write access disabled the push
handler returns the write-access-disabled error result for every request,
with an empty backend trace and an unchanged server. -/
theorem push_gating (s : GitServer) (ops : GitOperations) (env : Env) (args : Args) :
    ("git_push" ∈ registeredToolNames s ↔ s.writeAccess = true)
  ∧ (∀ t, t ∈ baseToolNames → t ∈ registeredToolNames s)
  ∧ (s.writeAccess = false →
      gitPushHandler s ops env args =
        ⟨toolResultError
            "Write access is disabled. Use --write-access flag to enable remote operations.",
          s, []⟩) := by
  refine ⟨?_, ?_, ?_⟩
  · cases h : s.writeAccess <;> simp [registeredToolNames, baseToolNames, h]
  · intro t ht
    simp only [registeredToolNames, List.mem_append]
    exact Or.inl ht
  · intro h
    simp [gitPushHandler, h]

/-- **C3 (witness).** At a concrete write-disabled server: push is not
advertised, `git_status` is advertised, and the push handler yields the
write-access-disabled error with no backend call. -/
theorem push_gating_witness :
    ("git_push" ∈ registeredToolNames srvRepo ↔ srvRepo.writeAccess = true)
  ∧ "git_status" ∈ registeredToolNames srvRepo
  ∧ gitPushHandler srvRepo opsConst envRepoOnly [] =
      ⟨toolResultError
          "Write access is disabled. Use --write-access flag to enable remote operations.",
        srvRepo, []⟩ := by
  refine ⟨(push_gating srvRepo opsConst envRepoOnly []).1, ?_, ?_⟩
  · exact (push_gating srvRepo opsConst envRepoOnly []).2.1 "git_status" (by decide)
  · exact (push_gating srvRepo opsConst envRepoOnly []).2.2 (by decide)

/-! ### Claim C6 -/

/-- **C6 (counterexample).** A `git_diff` call whose required `target`
argument is absent and whose `repo_path` is outside the registry yields
the repository-path error, not the missing-argument error: resolution
runs before argument validation, contradicting the claimed order. -/
theorem diff_validation_order_counterexample :
    getStr [("repo_path", MVal.str "/outside")] "target" = none
  ∧ gitDiffHandler srvRepo opsConst envRepoOnly [("repo_path", MVal.str "/outside")] =
      ⟨toolResultError
          "Repository path error: access denied - path outside allowed repositories: /outside",
        srvRepo, []⟩
  ∧ gitDiffHandler srvRepo opsConst envRepoOnly [("repo_path", MVal.str "/outside")] ≠
      ⟨toolResultError "target must be a string", srvRepo, []⟩ := by
  decide

/-- **C6 (amended).** Per-call processing resolves the target repository
before validating tool-specific required arguments: when resolution fails
the result is the repository-path error even if a required argument is
missing, and when resolution succeeds, a missing or non-string required
argument (git_diff's `target`, git_commit's `message`) produces the
missing/invalid-argument error result with no backend call. -/
theorem required_arg_checks (s : GitServer) (ops : GitOperations) (env : Env)
    (args : Args) :
    (∀ e, getRepoPathForOperation s env (argStr args "repo_path") = .error e →
        gitDiffHandler s ops env args = ⟨toolResultError ("Repository path error: " ++ e), s, []⟩
      ∧ gitCommitHandler s ops env args =
          ⟨toolResultError ("Repository path error: " ++ e), s, []⟩)
  ∧ (∀ rp, getRepoPathForOperation s env (argStr args "repo_path") = .ok rp →
        (getStr args "target" = none →
          gitDiffHandler s ops env args = ⟨toolResultError "target must be a string", s, []⟩)
      ∧ (getStr args "message" = none →
          gitCommitHandler s ops env args =
            ⟨toolResultError "message must be a string", s, []⟩)) := by
  refine ⟨fun e he => ⟨?_, ?_⟩, fun rp hrp => ⟨fun ht => ?_, fun hm => ?_⟩⟩
  · simp [gitDiffHandler, he]
  · simp [gitCommitHandler, he]
  · simp [gitDiffHandler, hrp, ht]
  · simp [gitCommitHandler, hrp, hm]

/-- **C6 (witness).** With a resolvable default repository and no `target`
or `message` argument, git_diff and git_commit return the respective
missing-argument errors. -/
theorem required_arg_checks_witness :
    gitDiffHandler srvRepo opsConst envRepoOnly [] =
      ⟨toolResultError "target must be a string", srvRepo, []⟩
  ∧ gitCommitHandler srvRepo opsConst envRepoOnly [] =
      ⟨toolResultError "message must be a string", srvRepo, []⟩ := by
  refine ⟨?_, ?_⟩
  · exact ((required_arg_checks srvRepo opsConst envRepoOnly []).2 "/repo"
      (by decide)).1 (by decide)
  · exact ((required_arg_checks srvRepo opsConst envRepoOnly []).2 "/repo"
      (by decide)).2 (by decide)

/-! ### Claim C10 -/

/-- **C10.** The patch-apply handlers reject degenerate inputs before any
backend operation: a whitespace-only `patch_string`, and a whitespace-only
`patch_file` or one whose file does not exist on disk, each produce an
error result with an empty backend trace and an unchanged server. -/
theorem patch_degenerate_rejected (s : GitServer) (ops : GitOperations) (env : Env)
    (args : Args) :
    (∀ ps, lookupArg args "patch_string" = some (MVal.str ps) → goTrimSpace ps = "" →
        (gitApplyPatchStringHandler s ops env args).result.isError = true
      ∧ (gitApplyPatchStringHandler s ops env args).trace = []
      ∧ (gitApplyPatchStringHandler s ops env args).server = s)
  ∧ (∀ pf, lookupArg args "patch_file" = some (MVal.str pf) →
      (goTrimSpace pf = "" ∨ (∃ q, goAbs env.cwd pf = some q ∧ env.stat q = .notExist)) →
        (gitApplyPatchFileHandler s ops env args).result.isError = true
      ∧ (gitApplyPatchFileHandler s ops env args).trace = []
      ∧ (gitApplyPatchFileHandler s ops env args).server = s) := by
  constructor
  · intro ps hps htrim
    cases hval : getRepoPathForOperation s env (argStr args "repo_path") with
    | error e => simp [gitApplyPatchStringHandler, hval, toolResultError]
    | ok rp =>
      have hg : getStr args "patch_string" = some ps := by simp [getStr, hps]
      simp [gitApplyPatchStringHandler, hval, hg, htrim, toolResultError]
  · intro pf hpf hdeg
    cases hval : getRepoPathForOperation s env (argStr args "repo_path") with
    | error e => simp [gitApplyPatchFileHandler, hval, toolResultError]
    | ok rp =>
      have hg : getStr args "patch_file" = some pf := by simp [getStr, hpf]
      rcases hdeg with htrim | ⟨q, habs, hstat⟩
      · simp [gitApplyPatchFileHandler, hval, hg, htrim, toolResultError]
      · by_cases htrim : goTrimSpace pf = ""
        · simp [gitApplyPatchFileHandler, hval, hg, htrim, toolResultError]
        · simp [gitApplyPatchFileHandler, hval, hg, htrim, habs, hstat, toolResultError]

/-- **C10 (witness).** A whitespace-only patch string and a non-existent
patch file are both rejected with an error, no backend call, and an
unchanged server. -/
theorem patch_degenerate_rejected_witness :
    ((gitApplyPatchStringHandler srvRepo opsConst envRepoOnly
        [("patch_string", MVal.str "  ")]).result.isError = true
      ∧ (gitApplyPatchStringHandler srvRepo opsConst envRepoOnly
          [("patch_string", MVal.str "  ")]).trace = []
      ∧ (gitApplyPatchStringHandler srvRepo opsConst envRepoOnly
          [("patch_string", MVal.str "  ")]).server = srvRepo)
  ∧ ((gitApplyPatchFileHandler srvRepo opsConst envRepoOnly
        [("patch_file", MVal.str "/missing.patch")]).result.isError = true
      ∧ (gitApplyPatchFileHandler srvRepo opsConst envRepoOnly
          [("patch_file", MVal.str "/missing.patch")]).trace = []
      ∧ (gitApplyPatchFileHandler srvRepo opsConst envRepoOnly
          [("patch_file", MVal.str "/missing.patch")]).server = srvRepo) := by
  constructor
  · exact (patch_degenerate_rejected srvRepo opsConst envRepoOnly
      [("patch_string", MVal.str "  ")]).1 "  " (by decide) (by decide)
  · exact (patch_degenerate_rejected srvRepo opsConst envRepoOnly
      [("patch_file", MVal.str "/missing.patch")]).2 "/missing.patch" (by decide)
      (Or.inr ⟨"/missing.patch", by decide, by decide⟩)

/-! ### Per-handler server preservation -/

theorem gitStatusHandler_keepsServer (s : GitServer) (ops : GitOperations) (env : Env)
    (args : Args) : (gitStatusHandler s ops env args).server = s := by
  unfold gitStatusHandler
  dsimp only
  repeat first | rfl | split

theorem gitDiffUnstagedHandler_keepsServer (s : GitServer) (ops : GitOperations) (env : Env)
    (args : Args) : (gitDiffUnstagedHandler s ops env args).server = s := by
  unfold gitDiffUnstagedHandler
  dsimp only
  repeat first | rfl | split

theorem gitDiffStagedHandler_keepsServer (s : GitServer) (ops : GitOperations) (env : Env)
    (args : Args) : (gitDiffStagedHandler s ops env args).server = s := by
  unfold gitDiffStagedHandler
  dsimp only
  repeat first | rfl | split

theorem gitDiffHandler_keepsServer (s : GitServer) (ops : GitOperations) (env : Env)
    (args : Args) : (gitDiffHandler s ops env args).server = s := by
  unfold gitDiffHandler
  dsimp only
  repeat first | rfl | split

theorem gitCommitHandler_keepsServer (s : GitServer) (ops : GitOperations) (env : Env)
    (args : Args) : (gitCommitHandler s ops env args).server = s := by
  unfold gitCommitHandler
  dsimp only
  repeat first | rfl | split

theorem gitAddHandler_keepsServer (s : GitServer) (ops : GitOperations) (env : Env)
    (args : Args) : (gitAddHandler s ops env args).server = s := by
  unfold gitAddHandler
  dsimp only
  repeat first | rfl | split

theorem gitResetHandler_keepsServer (s : GitServer) (ops : GitOperations) (env : Env)
    (args : Args) : (gitResetHandler s ops env args).server = s := by
  unfold gitResetHandler
  dsimp only
  repeat first | rfl | split

theorem gitLogHandler_keepsServer (s : GitServer) (ops : GitOperations) (env : Env)
    (args : Args) : (gitLogHandler s ops env args).server = s := by
  unfold gitLogHandler
  dsimp only
  repeat first | rfl | split

theorem gitCreateBranchHandler_keepsServer (s : GitServer) (ops : GitOperations) (env : Env)
    (args : Args) : (gitCreateBranchHandler s ops env args).server = s := by
  unfold gitCreateBranchHandler
  dsimp only
  repeat first | rfl | split

theorem gitCheckoutHandler_keepsServer (s : GitServer) (ops : GitOperations) (env : Env)
    (args : Args) : (gitCheckoutHandler s ops env args).server = s := by
  unfold gitCheckoutHandler
  dsimp only
  repeat first | rfl | split

theorem gitShowHandler_keepsServer (s : GitServer) (ops : GitOperations) (env : Env)
    (args : Args) : (gitShowHandler s ops env args).server = s := by
  unfold gitShowHandler
  dsimp only
  repeat first | rfl | split

theorem gitPushHandler_keepsServer (s : GitServer) (ops : GitOperations) (env : Env)
    (args : Args) : (gitPushHandler s ops env args).server = s := by
  unfold gitPushHandler
  dsimp only
  repeat first | rfl | split

theorem gitApplyPatchStringHandler_keepsServer (s : GitServer) (ops : GitOperations)
    (env : Env) (args : Args) : (gitApplyPatchStringHandler s ops env args).server = s := by
  unfold gitApplyPatchStringHandler
  dsimp only
  repeat first | rfl | split

theorem gitApplyPatchFileHandler_keepsServer (s : GitServer) (ops : GitOperations)
    (env : Env) (args : Args) : (gitApplyPatchFileHandler s ops env args).server = s := by
  unfold gitApplyPatchFileHandler
  dsimp only
  repeat first | rfl | split

theorem gitListRepositoriesHandler_keepsServer (s : GitServer) (ops : GitOperations)
    (env : Env) (args : Args) : (gitListRepositoriesHandler s ops env args).server = s := by
  unfold gitListRepositoriesHandler
  dsimp only
  repeat first | rfl | split

theorem callTool_init (s : GitServer) (ops : GitOperations) (env : Env) (args : Args) :
    callTool s ops env "git_init" args = gitInitHandler s ops env args := by
  simp [callTool]

/-- Outcome characterization of `gitInitHandler`: either it fails with an
error payload and an unchanged server, or it succeeds and the registry is
the old registry with the requested path's absolute form appended,
whether or not that path was already tracked. -/
theorem gitInitHandler_spec (s : GitServer) (ops : GitOperations) (env : Env) (args : Args) :
    ((gitInitHandler s ops env args).result.isError = true
      ∧ (gitInitHandler s ops env args).server = s)
  ∨ ((gitInitHandler s ops env args).result.isError = false
      ∧ ∃ q, argStr args "repo_path" ≠ "" ∧ goAbs env.cwd (argStr args "repo_path") = some q
          ∧ (gitInitHandler s ops env args).server.repoPaths = s.repoPaths ++ [q]
          ∧ (gitInitHandler s ops env args).trace = [BackendOp.initRepo q]) := by
  unfold gitInitHandler
  dsimp only
  by_cases h0 : argStr args "repo_path" = ""
  · left
    simp [h0, toolResultError]
  · simp only [h0, if_false]
    cases habs : goAbs env.cwd (argStr args "repo_path") with
    | none => left; simp [toolResultError]
    | some q =>
      cases hop : ops.initRepo q with
      | error e => left; simp [hop, toolResultError]
      | ok r =>
        right
        exact ⟨by simp [hop, toolResultText], q, h0, rfl, by simp [hop], by simp [hop]⟩

/-! ### Claim C7 -/

/-- **C7 (counterexample).** A successful `git_init` at `/repo`, a path
already tracked by the registry `[/repo]`, still appends it: the registry
becomes `[/repo, /repo]` instead of staying unchanged, contradicting the
claim that a new entry is gained exactly when the path is not yet
tracked. -/
theorem init_duplicate_append_counterexample :
    (callTool srvRepo opsConst envRepoOnly "git_init"
        [("repo_path", MVal.str "/repo")]).result.isError = false
  ∧ (callTool srvRepo opsConst envRepoOnly "git_init"
        [("repo_path", MVal.str "/repo")]).server.repoPaths = ["/repo", "/repo"]
  ∧ (callTool srvRepo opsConst envRepoOnly "git_init"
        [("repo_path", MVal.str "/repo")]).server.repoPaths ≠ srvRepo.repoPaths := by
  decide

set_option maxHeartbeats 1000000 in
/-- **C7 (amended).** The registry never shrinks and only `git_init`
changes it: the old registry is a prefix of the registry after any call;
every tool other than `git_init` leaves the server unchanged; and a
`git_init` call either fails leaving the registry unchanged, or succeeds
and appends the requested path's absolute form — even when that path is
already tracked. -/
theorem registry_growth (s : GitServer) (ops : GitOperations) (env : Env)
    (name : String) (args : Args) :
    s.repoPaths <+: (callTool s ops env name args).server.repoPaths
  ∧ (name ≠ "git_init" → (callTool s ops env name args).server = s)
  ∧ (name = "git_init" →
      ((callTool s ops env name args).result.isError = true
        ∧ (callTool s ops env name args).server = s)
    ∨ ((callTool s ops env name args).result.isError = false
        ∧ ∃ q, goAbs env.cwd (argStr args "repo_path") = some q
            ∧ (callTool s ops env name args).server.repoPaths = s.repoPaths ++ [q])) := by
  have hne : name ≠ "git_init" → (callTool s ops env name args).server = s := by
    intro h
    unfold callTool
    by_cases h1 : name = "git_status"
    · rw [if_pos h1]; exact gitStatusHandler_keepsServer s ops env args
    rw [if_neg h1]
    by_cases h2 : name = "git_diff_unstaged"
    · rw [if_pos h2]; exact gitDiffUnstagedHandler_keepsServer s ops env args
    rw [if_neg h2]
    by_cases h3 : name = "git_diff_staged"
    · rw [if_pos h3]; exact gitDiffStagedHandler_keepsServer s ops env args
    rw [if_neg h3]
    by_cases h4 : name = "git_diff"
    · rw [if_pos h4]; exact gitDiffHandler_keepsServer s ops env args
    rw [if_neg h4]
    by_cases h5 : name = "git_commit"
    · rw [if_pos h5]; exact gitCommitHandler_keepsServer s ops env args
    rw [if_neg h5]
    by_cases h6 : name = "git_add"
    · rw [if_pos h6]; exact gitAddHandler_keepsServer s ops env args
    rw [if_neg h6]
    by_cases h7 : name = "git_reset"
    · rw [if_pos h7]; exact gitResetHandler_keepsServer s ops env args
    rw [if_neg h7]
    by_cases h8 : name = "git_log"
    · rw [if_pos h8]; exact gitLogHandler_keepsServer s ops env args
    rw [if_neg h8]
    by_cases h9 : name = "git_create_branch"
    · rw [if_pos h9]; exact gitCreateBranchHandler_keepsServer s ops env args
    rw [if_neg h9]
    by_cases h10 : name = "git_checkout"
    · rw [if_pos h10]; exact gitCheckoutHandler_keepsServer s ops env args
    rw [if_neg h10]
    by_cases h11 : name = "git_show"
    · rw [if_pos h11]; exact gitShowHandler_keepsServer s ops env args
    rw [if_neg h11]
    rw [if_neg h]
    by_cases h13 : name = "git_list_repositories"
    · rw [if_pos h13]; exact gitListRepositoriesHandler_keepsServer s ops env args
    rw [if_neg h13]
    by_cases h14 : name = "git_apply_patch_string"
    · rw [if_pos h14]; exact gitApplyPatchStringHandler_keepsServer s ops env args
    rw [if_neg h14]
    by_cases h15 : name = "git_apply_patch_file"
    · rw [if_pos h15]; exact gitApplyPatchFileHandler_keepsServer s ops env args
    rw [if_neg h15]
    by_cases h16 : name = "git_push"
    · rw [if_pos h16]; exact gitPushHandler_keepsServer s ops env args
    rw [if_neg h16]
  by_cases hn : name = "git_init"
  · subst hn
    rw [callTool_init]
    rcases gitInitHandler_spec s ops env args with ⟨he, hs⟩ | ⟨he, q, hq0, habs, hrp, _⟩
    · exact ⟨by rw [hs], fun h => absurd rfl h, fun _ => Or.inl ⟨he, hs⟩⟩
    · refine ⟨?_, fun h => absurd rfl h, fun _ => Or.inr ⟨he, q, habs, hrp⟩⟩
      rw [hrp]
      exact List.prefix_append _ _
  · have hs := hne hn
    exact ⟨by rw [hs], fun _ => hs, fun h => absurd h hn⟩

/-- **C7 (witness).** A non-init call leaves the server unchanged, and
the old registry is a prefix of the new one. -/
theorem registry_growth_witness :
    srvRepo.repoPaths <+:
      (callTool srvRepo opsConst envRepoOnly "git_status" []).server.repoPaths
  ∧ (callTool srvRepo opsConst envRepoOnly "git_status" []).server = srvRepo :=
  ⟨(registry_growth srvRepo opsConst envRepoOnly "git_status" []).1,
   (registry_growth srvRepo opsConst envRepoOnly "git_status" []).2.1 (by decide)⟩

/-! ### Dispatch reduction lemmas -/

theorem callTool_status (s : GitServer) (ops : GitOperations) (env : Env) (args : Args) :
    callTool s ops env "git_status" args = gitStatusHandler s ops env args := by
  simp [callTool]

theorem callTool_diffUnstaged (s : GitServer) (ops : GitOperations) (env : Env)
    (args : Args) :
    callTool s ops env "git_diff_unstaged" args = gitDiffUnstagedHandler s ops env args := by
  simp [callTool]

theorem callTool_diffStaged (s : GitServer) (ops : GitOperations) (env : Env)
    (args : Args) :
    callTool s ops env "git_diff_staged" args = gitDiffStagedHandler s ops env args := by
  simp [callTool]

theorem callTool_diff (s : GitServer) (ops : GitOperations) (env : Env) (args : Args) :
    callTool s ops env "git_diff" args = gitDiffHandler s ops env args := by
  simp [callTool]

theorem callTool_commit (s : GitServer) (ops : GitOperations) (env : Env) (args : Args) :
    callTool s ops env "git_commit" args = gitCommitHandler s ops env args := by
  simp [callTool]

theorem callTool_add (s : GitServer) (ops : GitOperations) (env : Env) (args : Args) :
    callTool s ops env "git_add" args = gitAddHandler s ops env args := by
  simp [callTool]

theorem callTool_reset (s : GitServer) (ops : GitOperations) (env : Env) (args : Args) :
    callTool s ops env "git_reset" args = gitResetHandler s ops env args := by
  simp [callTool]

theorem callTool_log (s : GitServer) (ops : GitOperations) (env : Env) (args : Args) :
    callTool s ops env "git_log" args = gitLogHandler s ops env args := by
  simp [callTool]

theorem callTool_createBranch (s : GitServer) (ops : GitOperations) (env : Env)
    (args : Args) :
    callTool s ops env "git_create_branch" args = gitCreateBranchHandler s ops env args := by
  simp [callTool]

theorem callTool_checkout (s : GitServer) (ops : GitOperations) (env : Env) (args : Args) :
    callTool s ops env "git_checkout" args = gitCheckoutHandler s ops env args := by
  simp [callTool]

theorem callTool_show (s : GitServer) (ops : GitOperations) (env : Env) (args : Args) :
    callTool s ops env "git_show" args = gitShowHandler s ops env args := by
  simp [callTool]

theorem callTool_list (s : GitServer) (ops : GitOperations) (env : Env) (args : Args) :
    callTool s ops env "git_list_repositories" args =
      gitListRepositoriesHandler s ops env args := by
  simp [callTool]

theorem callTool_applyPatchString (s : GitServer) (ops : GitOperations) (env : Env)
    (args : Args) :
    callTool s ops env "git_apply_patch_string" args =
      gitApplyPatchStringHandler s ops env args := by
  simp [callTool]

theorem callTool_applyPatchFile (s : GitServer) (ops : GitOperations) (env : Env)
    (args : Args) :
    callTool s ops env "git_apply_patch_file" args =
      gitApplyPatchFileHandler s ops env args := by
  simp [callTool]

theorem callTool_push (s : GitServer) (ops : GitOperations) (env : Env) (args : Args) :
    callTool s ops env "git_push" args = gitPushHandler s ops env args := by
  simp [callTool]

/-! ### Per-handler behavior on resolution failure -/

theorem gitStatusHandler_pathErr (s : GitServer) (ops : GitOperations) (env : Env)
    (args : Args) (e : String)
    (h : getRepoPathForOperation s env (argStr args "repo_path") = .error e) :
    gitStatusHandler s ops env args =
      ⟨toolResultError ("Repository path error: " ++ e), s, []⟩ := by
  unfold gitStatusHandler
  simp [h]

theorem gitDiffUnstagedHandler_pathErr (s : GitServer) (ops : GitOperations) (env : Env)
    (args : Args) (e : String)
    (h : getRepoPathForOperation s env (argStr args "repo_path") = .error e) :
    gitDiffUnstagedHandler s ops env args =
      ⟨toolResultError ("Repository path error: " ++ e), s, []⟩ := by
  unfold gitDiffUnstagedHandler
  simp [h]

theorem gitDiffStagedHandler_pathErr (s : GitServer) (ops : GitOperations) (env : Env)
    (args : Args) (e : String)
    (h : getRepoPathForOperation s env (argStr args "repo_path") = .error e) :
    gitDiffStagedHandler s ops env args =
      ⟨toolResultError ("Repository path error: " ++ e), s, []⟩ := by
  unfold gitDiffStagedHandler
  simp [h]

theorem gitDiffHandler_pathErr (s : GitServer) (ops : GitOperations) (env : Env)
    (args : Args) (e : String)
    (h : getRepoPathForOperation s env (argStr args "repo_path") = .error e) :
    gitDiffHandler s ops env args =
      ⟨toolResultError ("Repository path error: " ++ e), s, []⟩ := by
  unfold gitDiffHandler
  simp [h]

theorem gitCommitHandler_pathErr (s : GitServer) (ops : GitOperations) (env : Env)
    (args : Args) (e : String)
    (h : getRepoPathForOperation s env (argStr args "repo_path") = .error e) :
    gitCommitHandler s ops env args =
      ⟨toolResultError ("Repository path error: " ++ e), s, []⟩ := by
  unfold gitCommitHandler
  simp [h]

theorem gitAddHandler_pathErr (s : GitServer) (ops : GitOperations) (env : Env)
    (args : Args) (e : String)
    (h : getRepoPathForOperation s env (argStr args "repo_path") = .error e) :
    gitAddHandler s ops env args =
      ⟨toolResultError ("Repository path error: " ++ e), s, []⟩ := by
  unfold gitAddHandler
  simp [h]

theorem gitResetHandler_pathErr (s : GitServer) (ops : GitOperations) (env : Env)
    (args : Args) (e : String)
    (h : getRepoPathForOperation s env (argStr args "repo_path") = .error e) :
    gitResetHandler s ops env args =
      ⟨toolResultError ("Repository path error: " ++ e), s, []⟩ := by
  unfold gitResetHandler
  simp [h]

theorem gitLogHandler_pathErr (s : GitServer) (ops : GitOperations) (env : Env)
    (args : Args) (e : String)
    (h : getRepoPathForOperation s env (argStr args "repo_path") = .error e) :
    gitLogHandler s ops env args =
      ⟨toolResultError ("Repository path error: " ++ e), s, []⟩ := by
  unfold gitLogHandler
  simp [h]

theorem gitCreateBranchHandler_pathErr (s : GitServer) (ops : GitOperations) (env : Env)
    (args : Args) (e : String)
    (h : getRepoPathForOperation s env (argStr args "repo_path") = .error e) :
    gitCreateBranchHandler s ops env args =
      ⟨toolResultError ("Repository path error: " ++ e), s, []⟩ := by
  unfold gitCreateBranchHandler
  simp [h]

theorem gitCheckoutHandler_pathErr (s : GitServer) (ops : GitOperations) (env : Env)
    (args : Args) (e : String)
    (h : getRepoPathForOperation s env (argStr args "repo_path") = .error e) :
    gitCheckoutHandler s ops env args =
      ⟨toolResultError ("Repository path error: " ++ e), s, []⟩ := by
  unfold gitCheckoutHandler
  simp [h]

theorem gitShowHandler_pathErr (s : GitServer) (ops : GitOperations) (env : Env)
    (args : Args) (e : String)
    (h : getRepoPathForOperation s env (argStr args "repo_path") = .error e) :
    gitShowHandler s ops env args =
      ⟨toolResultError ("Repository path error: " ++ e), s, []⟩ := by
  unfold gitShowHandler
  simp [h]

theorem gitApplyPatchStringHandler_pathErr (s : GitServer) (ops : GitOperations)
    (env : Env) (args : Args) (e : String)
    (h : getRepoPathForOperation s env (argStr args "repo_path") = .error e) :
    gitApplyPatchStringHandler s ops env args =
      ⟨toolResultError ("Repository path error: " ++ e), s, []⟩ := by
  unfold gitApplyPatchStringHandler
  simp [h]

theorem gitApplyPatchFileHandler_pathErr (s : GitServer) (ops : GitOperations)
    (env : Env) (args : Args) (e : String)
    (h : getRepoPathForOperation s env (argStr args "repo_path") = .error e) :
    gitApplyPatchFileHandler s ops env args =
      ⟨toolResultError ("Repository path error: " ++ e), s, []⟩ := by
  unfold gitApplyPatchFileHandler
  simp [h]

theorem gitPushHandler_pathErr (s : GitServer) (ops : GitOperations) (env : Env)
    (args : Args) (e : String) (hw : s.writeAccess = true)
    (h : getRepoPathForOperation s env (argStr args "repo_path") = .error e) :
    gitPushHandler s ops env args =
      ⟨toolResultError ("Repository path error: " ++ e), s, []⟩ := by
  unfold gitPushHandler
  simp [hw, h]

/-! ### Claim C9 -/

/-- **C9.** With an empty registry, every advertised tool that resolves a
repository fails on every input: an omitted or empty `repo_path` yields
the no-default-repository error, and every non-empty `repo_path` — with
no condition at all on what exists on disk at that path — yields the
access-denied error naming its absolute form, because the containment
check over an empty registry never matches. `git_list_repositories`
still succeeds (reporting no repositories), and `git_init` remains
usable, appending the new path. -/
theorem emptyRegistry_behavior (s : GitServer) (ops : GitOperations) (env : Env)
    (name : String) (args : Args)
    (hreg : s.repoPaths = [])
    (hname : name ∈ resolvingToolNames)
    (hpush : name = "git_push" → s.writeAccess = true) :
    (argStr args "repo_path" = "" →
      callTool s ops env name args =
        ⟨toolResultError
            "Repository path error: no repository specified and no defaults configured",
          s, []⟩)
  ∧ (∀ p q, argStr args "repo_path" = p → p ≠ "" → goAbs env.cwd p = some q →
      callTool s ops env name args =
        ⟨toolResultError
            ("Repository path error: "
              ++ ("access denied - path outside allowed repositories: " ++ q)),
          s, []⟩)
  ∧ callTool s ops env "git_list_repositories" args =
      ⟨toolResultText "No repositories configured", s, []⟩
  ∧ (∀ p q r, argStr args "repo_path" = p → p ≠ "" → goAbs env.cwd p = some q →
      ops.initRepo q = .ok r →
      callTool s ops env "git_init" args =
        ⟨toolResultText r, { s with repoPaths := s.repoPaths ++ [q] },
          [BackendOp.initRepo q]⟩) := by
  have hcall : ∀ e, getRepoPathForOperation s env (argStr args "repo_path") = .error e →
      callTool s ops env name args =
        ⟨toolResultError ("Repository path error: " ++ e), s, []⟩ := by
    intro e he
    simp only [resolvingToolNames, List.mem_cons, List.not_mem_nil, or_false] at hname
    rcases hname with rfl | rfl | rfl | rfl | rfl | rfl | rfl | rfl | rfl | rfl | rfl
      | rfl | rfl | rfl
    · rw [callTool_status]; exact gitStatusHandler_pathErr s ops env args e he
    · rw [callTool_diffUnstaged]; exact gitDiffUnstagedHandler_pathErr s ops env args e he
    · rw [callTool_diffStaged]; exact gitDiffStagedHandler_pathErr s ops env args e he
    · rw [callTool_diff]; exact gitDiffHandler_pathErr s ops env args e he
    · rw [callTool_commit]; exact gitCommitHandler_pathErr s ops env args e he
    · rw [callTool_add]; exact gitAddHandler_pathErr s ops env args e he
    · rw [callTool_reset]; exact gitResetHandler_pathErr s ops env args e he
    · rw [callTool_log]; exact gitLogHandler_pathErr s ops env args e he
    · rw [callTool_createBranch]; exact gitCreateBranchHandler_pathErr s ops env args e he
    · rw [callTool_checkout]; exact gitCheckoutHandler_pathErr s ops env args e he
    · rw [callTool_show]; exact gitShowHandler_pathErr s ops env args e he
    · rw [callTool_applyPatchString]
      exact gitApplyPatchStringHandler_pathErr s ops env args e he
    · rw [callTool_applyPatchFile]
      exact gitApplyPatchFileHandler_pathErr s ops env args e he
    · rw [callTool_push]; exact gitPushHandler_pathErr s ops env args e (hpush rfl) he
  refine ⟨fun hempty => ?_, fun p q hp hp0 habs => ?_, ?_, fun p q r hp hp0 habs hinit => ?_⟩
  · apply hcall
    unfold getRepoPathForOperation
    rw [hempty, validateRepoPath_nil s env hreg]
    simp
  · apply hcall
    unfold getRepoPathForOperation
    rw [hp, validateRepoPath_nil s env hreg]
    simp [hp0, habs]
  · rw [callTool_list]
    unfold gitListRepositoriesHandler
    simp [hreg]
  · subst hp
    rw [callTool_init]
    unfold gitInitHandler
    dsimp only
    simp [hp0, habs, hinit]

/-- **C9 (witness).** At a concrete empty-registry server: `git_status`
with no arguments gives the no-default error; `git_status` on `/repo` —
a path that really is a Git repository on disk — gives the access-denied
error; `git_list_repositories` succeeds; `git_init` succeeds and
registers the path. -/
theorem emptyRegistry_behavior_witness :
    callTool { repoPaths := [], writeAccess := false } opsConst envRepoOnly "git_status" [] =
      ⟨toolResultError
          "Repository path error: no repository specified and no defaults configured",
        { repoPaths := [], writeAccess := false }, []⟩
  ∧ callTool { repoPaths := [], writeAccess := false } opsConst envRepoOnly "git_status"
        [("repo_path", MVal.str "/repo")] =
      ⟨toolResultError
          "Repository path error: access denied - path outside allowed repositories: /repo",
        { repoPaths := [], writeAccess := false }, []⟩
  ∧ callTool { repoPaths := [], writeAccess := false } opsConst envRepoOnly
        "git_list_repositories" [] =
      ⟨toolResultText "No repositories configured",
        { repoPaths := [], writeAccess := false }, []⟩
  ∧ callTool { repoPaths := [], writeAccess := false } opsConst envRepoOnly "git_init"
        [("repo_path", MVal.str "/fresh")] =
      ⟨toolResultText "initialized", { repoPaths := ["/fresh"], writeAccess := false },
        [BackendOp.initRepo "/fresh"]⟩ := by
  refine ⟨?_, ?_, ?_, ?_⟩
  · exact (emptyRegistry_behavior { repoPaths := [], writeAccess := false } opsConst
      envRepoOnly "git_status" [] rfl (by decide) (fun h => by simp at h)).1 (by decide)
  · exact (emptyRegistry_behavior { repoPaths := [], writeAccess := false } opsConst
      envRepoOnly "git_status" [("repo_path", MVal.str "/repo")] rfl (by decide)
      (fun h => by simp at h)).2.1 "/repo" "/repo" (by decide) (by decide) (by decide)
  · exact (emptyRegistry_behavior { repoPaths := [], writeAccess := false } opsConst
      envRepoOnly "git_status" [] rfl (by decide) (fun h => by simp at h)).2.2.1
  · exact (emptyRegistry_behavior { repoPaths := [], writeAccess := false } opsConst
      envRepoOnly "git_status" [("repo_path", MVal.str "/fresh")] rfl (by decide)
      (fun h => by simp at h)).2.2.2 "/fresh" "/fresh" "initialized" (by decide)
      (by decide) (by decide) (by decide)

/-! ### Claim C8 -/

/-- **C8.** For a push that transfers nothing, the two backends are
textually compatible: when git's own output carries the `up-to-date`
marker, the shell variant returns that output unchanged as a success
whose text contains "up-to-date"; and when the transport reports the
already-up-to-date sentinel, the library variant returns the success
text "Everything up-to-date", which also contains "up-to-date". -/
theorem push_noop_backends_compatible (renv : ShellEnv) (genv : GoGitEnv)
    (repoPath remote branch out rs : String)
    (hrun : renv.run repoPath (pushCmdArgs remote branch) = .ok out)
    (hmark : strContains out "up-to-date" = true)
    (hopen : genv.plainOpenOk repoPath = true)
    (hrs : gogitRefspec genv repoPath branch = .ok rs)
    (hpush : genv.push repoPath (if remote = "" then "origin" else remote)
        (rs ++ ":" ++ rs) = .alreadyUpToDate) :
    (shellPushChanges renv repoPath remote branch = .ok out
      ∧ strContains out "up-to-date" = true)
  ∧ (gogitPushChanges genv repoPath remote branch = .ok "Everything up-to-date"
      ∧ strContains "Everything up-to-date" "up-to-date" = true) := by
  refine ⟨⟨?_, hmark⟩, ⟨?_, by decide⟩⟩
  · unfold shellPushChanges
    rw [hrun]
    simp [hmark]
  · unfold gogitPushChanges
    rw [hopen, hrs]
    simp [hpush]

/-- **C8 (witness).** A concrete no-op push: git prints
`Everything up-to-date` under the shell backend, and the transport
reports already-up-to-date under the library backend; both yield success
texts containing "up-to-date". -/
theorem push_noop_backends_compatible_witness :
    (shellPushChanges { run := fun _ _ => .ok "Everything up-to-date" } "/repo" "" "" =
        .ok "Everything up-to-date"
      ∧ strContains "Everything up-to-date" "up-to-date" = true)
  ∧ (gogitPushChanges
        { plainOpenOk := fun _ => true,
          head := fun _ => some { name := "refs/heads/main", isBranch := true },
          push := fun _ _ _ => .alreadyUpToDate } "/repo" "" "" =
        .ok "Everything up-to-date"
      ∧ strContains "Everything up-to-date" "up-to-date" = true) :=
  push_noop_backends_compatible
    { run := fun _ _ => .ok "Everything up-to-date" }
    { plainOpenOk := fun _ => true,
      head := fun _ => some { name := "refs/heads/main", isBranch := true },
      push := fun _ _ _ => .alreadyUpToDate }
    "/repo" "" "" "Everything up-to-date" "refs/heads/main"
    rfl (by decide) rfl (by decide) rfl

/-! ### Claim C4 -/

/-- **C4 (counterexample).** `git_init` is a registered tool, yet with the
non-empty registry `[/repo]` a `git_init` call omitting `repo_path` is
rejected outright, while the identical call with the first registered
path supplied explicitly attempts (and here completes) an initialization:
the two results differ. -/
theorem default_repo_init_counterexample :
    "git_init" ∈ registeredToolNames srvRepo
  ∧ srvRepo.repoPaths ≠ []
  ∧ callTool srvRepo opsConst envRepoOnly "git_init" [] ≠
      callTool srvRepo opsConst envRepoOnly "git_init"
        [("repo_path", MVal.str "/repo")] := by
  decide

/-- **C4 (amended).** For every registered tool other than `git_init`,
when the registry is non-empty, its first entry is a canonical absolute
path, and its Git metadata stat does not report does-not-exist at call
time, a call omitting `repo_path` produces exactly the same outcome as
the identical call with the first registered path supplied explicitly. -/
theorem default_repo_equivalence (s : GitServer) (ops : GitOperations) (env : Env)
    (name : String) (args : Args) (first : String) (rest : List String)
    (hreg : s.repoPaths = first :: rest)
    (hne : first ≠ "")
    (hfix : goAbs env.cwd first = some first)
    (hgit : env.stat (goJoin first ".git") ≠ .notExist)
    (hname : name ∈ registeredToolNames s)
    (hninit : name ≠ "git_init")
    (habsent : lookupArg args "repo_path" = none) :
    callTool s ops env name args =
      callTool s ops env name (("repo_path", MVal.str first) :: args) := by
  have h0 : argStr args "repo_path" = "" := argStr_of_none args "repo_path" habsent
  have hres1 : getRepoPathForOperation s env (argStr args "repo_path") = .ok first := by
    rw [h0]
    exact validateRepoPath_default s env first rest hreg
  have hres2 : getRepoPathForOperation s env
      (argStr (("repo_path", MVal.str first) :: args) "repo_path") = .ok first := by
    rw [argStr_cons_self_str]
    exact validateRepoPath_first s env first rest hreg hne hfix hgit
  have hmem : name ∈ baseToolNames ∨ name = "git_push" := by
    have h := hname
    simp only [registeredToolNames, List.mem_append] at h
    rcases h with hb | hp
    · exact Or.inl hb
    · by_cases hw : s.writeAccess
      · right
        simpa [hw] using hp
      · simp [hw] at hp
  rcases hmem with hb | rfl
  · simp only [baseToolNames, List.mem_cons, List.not_mem_nil, or_false] at hb
    rcases hb with rfl | rfl | rfl | rfl | rfl | rfl | rfl | rfl | rfl | rfl | rfl | rfl
      | rfl | rfl | rfl
    · rw [callTool_status, callTool_status]
      unfold gitStatusHandler
      dsimp only
      rw [hres1, hres2]
    · rw [callTool_diffUnstaged, callTool_diffUnstaged]
      unfold gitDiffUnstagedHandler
      dsimp only
      rw [hres1, hres2]
    · rw [callTool_diffStaged, callTool_diffStaged]
      unfold gitDiffStagedHandler
      dsimp only
      rw [hres1, hres2]
    · rw [callTool_diff, callTool_diff]
      unfold gitDiffHandler
      dsimp only
      rw [hres1, hres2, getStr_cons_ne "repo_path" "target" (MVal.str first) args (by decide)]
    · rw [callTool_commit, callTool_commit]
      unfold gitCommitHandler
      dsimp only
      rw [hres1, hres2, getStr_cons_ne "repo_path" "message" (MVal.str first) args (by decide)]
    · rw [callTool_add, callTool_add]
      unfold gitAddHandler
      dsimp only
      rw [hres1, hres2, getStr_cons_ne "repo_path" "files" (MVal.str first) args (by decide)]
    · rw [callTool_reset, callTool_reset]
      unfold gitResetHandler
      dsimp only
      rw [hres1, hres2]
    · rw [callTool_log, callTool_log]
      unfold gitLogHandler
      dsimp only
      rw [hres1, hres2,
        lookupArg_cons_ne "repo_path" "max_count" (MVal.str first) args (by decide)]
    · rw [callTool_createBranch, callTool_createBranch]
      unfold gitCreateBranchHandler
      dsimp only
      rw [hres1, hres2,
        getStr_cons_ne "repo_path" "branch_name" (MVal.str first) args (by decide),
        argStr_cons_ne "repo_path" "base_branch" (MVal.str first) args (by decide)]
    · rw [callTool_checkout, callTool_checkout]
      unfold gitCheckoutHandler
      dsimp only
      rw [hres1, hres2,
        getStr_cons_ne "repo_path" "branch_name" (MVal.str first) args (by decide)]
    · rw [callTool_show, callTool_show]
      unfold gitShowHandler
      dsimp only
      rw [hres1, hres2,
        getStr_cons_ne "repo_path" "revision" (MVal.str first) args (by decide)]
    · exact absurd rfl hninit
    · rw [callTool_list, callTool_list]
      rfl
    · rw [callTool_applyPatchString, callTool_applyPatchString]
      unfold gitApplyPatchStringHandler
      dsimp only
      rw [hres1, hres2,
        getStr_cons_ne "repo_path" "patch_string" (MVal.str first) args (by decide)]
    · rw [callTool_applyPatchFile, callTool_applyPatchFile]
      unfold gitApplyPatchFileHandler
      dsimp only
      rw [hres1, hres2,
        getStr_cons_ne "repo_path" "patch_file" (MVal.str first) args (by decide)]
  · by_cases hw : s.writeAccess
    · have hc : ¬((!s.writeAccess) = true) := by simp [hw]
      rw [callTool_push, callTool_push]
      unfold gitPushHandler
      dsimp only
      rw [if_neg hc, if_neg hc, hres1, hres2,
        argStr_cons_ne "repo_path" "remote" (MVal.str first) args (by decide),
        argStr_cons_ne "repo_path" "branch" (MVal.str first) args (by decide)]
    · have hc : (!s.writeAccess) = true := by simp [hw]
      rw [callTool_push, callTool_push]
      unfold gitPushHandler
      dsimp only
      rw [if_pos hc, if_pos hc]

/-- **C4 (witness).** With the registry `[/repo]`, a `git_status` call
with no arguments equals the same call with `repo_path` set to `/repo`. -/
theorem default_repo_equivalence_witness :
    callTool srvRepo opsConst envRepoOnly "git_status" [] =
      callTool srvRepo opsConst envRepoOnly "git_status"
        [("repo_path", MVal.str "/repo")] :=
  default_repo_equivalence srvRepo opsConst envRepoOnly "git_status" [] "/repo" []
    rfl (by decide) (by decide) (by decide) (by decide) (by decide) rfl

end GitMcp
